import Mathlib

/-!
Verification development for the pptop repository (src/pptop/injection.py and
src/pptop/__init__.py).  The Python code is shallowly embedded: machine-level
socket reads become functions over the byte chunks each recv call returns,
exceptions become an explicit error type, dynamically compiled extension
sources become their denotations as namespace transformers, and object
aliasing of the two row lists is tracked by an explicit flag.
-/

set_option maxHeartbeats 1000000

namespace PPTop

/-- Python exceptions that the embedded code can raise. -/
inductive PyExc where
  | nameError (n : String)
  | structError
  | socketTimeout
  | typeError
  | keyError (k : String)
  | runtimeError
  deriving DecidableEq, Repr

/-- Python values that cross the wire or live in extension namespaces:
None, int, str, a list of strings (for sys.path), and an opaque object
(the SimpleNamespace stored under key "g"). -/
inductive PyVal where
  | pynone
  | int (n : Int)
  | str (s : String)
  | strlist (l : List String)
  | obj
  deriving DecidableEq, Repr

/-- Execution namespace of an extension: the globals dict passed to exec,
modelled as an association list from names to values (first match wins,
updates replace in place, new keys append - Python dict semantics). -/
def PyNs : Type := List (String × PyVal)

instance : DecidableEq PyNs := by unfold PyNs; infer_instance

/-- Update-or-append for an association list, mirroring a Python dict
assignment d[k] = v. -/
def assocSet {α : Type} (m : List (String × α)) (k : String) (v : α) :
    List (String × α) :=
  match m with
  | [] => [(k, v)]
  | (k0, v0) :: rest =>
      if k0 = k then (k, v) :: rest else (k0, v0) :: assocSet rest k v

/-- Lookup for an association list, mirroring d.get(k). -/
def assocGet {α : Type} (m : List (String × α)) (k : String) : Option α :=
  match m with
  | [] => none
  | (k0, v0) :: rest => if k0 = k then some v0 else assocGet rest k

def nsSet (g : PyNs) (k : String) (v : PyVal) : PyNs := assocSet g k v

def nsGet (g : PyNs) (k : String) : Option PyVal := assocGet g k

/-- Denotation of a compiled Python code object executed with exec(code, g):
it transforms the namespace, or raises. -/
def Code : Type := PyNs → Except PyExc PyNs

/-- Fresh namespace created at install time (injection.py line 124):
the dict holding only key "g" bound to a SimpleNamespace. -/
def freshNs : PyNs := [("g", PyVal.obj)]

/-- Denotation of the default invoker source "_r = None" compiled when the
inject request carries no "i" entry (injection.py line 139). -/
def defaultInvoker : Code := fun g => .ok (nsSet g "_r" PyVal.pynone)

/-- One entry of the injections dict (injection.py lines 123-141).
Field g is the namespace dict, u the unloader source as stored (its compile
result is deferred to cleanup, so we keep the compile outcome), i the
compiled invoker; i = none models the state where the "i" key was never
assigned because the loader raised first. -/
structure Inj where
  g : PyNs
  u : Option (Except PyExc Code)
  i : Option Code

/-- The injections dict of the server loop. -/
def Registry : Type := List (String × Inj)

def regSet (r : Registry) (k : String) (v : Inj) : Registry := assocSet r k v

def regGet (r : Registry) (k : String) : Option Inj := assocGet r k

/-- Decoded payload of an inject command (the pickled dict cmd_data).
The source fields l and i carry the compile outcome of the corresponding
source text (compile can raise SyntaxError); for l the stored Code is the
denotation of the loader source followed by the appended injection_load()
call, for i the denotation of the invoker source followed by the appended
_r = injection() assignment. -/
structure InjectSpec where
  id : String
  l : Option (Except PyExc Code)
  u : Option (Except PyExc Code)
  i : Option (Except PyExc Code)

/-- Observable action of one dispatch step.  respond st p models
send_data of the status byte st followed by the pickled value p (p = none
when only the bare status byte is sent, as send_ok does);
closeSession models the break taken on the bye command; raised models an
exception escaping the dispatch code (the bare raise on line 179 runs
before the unreachable send of status 0x02, so every handler exception
propagates). -/
inductive Act where
  | respond (status : Nat) (payload : Option PyVal)
  | closeSession
  | raised (e : PyExc)
  deriving DecidableEq, Repr

/-- Result of dispatching one decoded command: the observable action, the
updated injections dict, and the ids whose unloader was executed during the
step (the dispatch code of injection.py lines 111-180 never executes an
unloader, so every branch below emits the empty list). -/
structure DispatchOut where
  act : Act
  reg : Registry
  evs : List String

/-- Second half of the inject branch (injection.py lines 136-143): compile
the invoker source (default "_r = None") and store it under key "i", then
answer with send_ok.  A compile failure raises and is re-raised by the
bare raise on line 179. -/
def finishInstall (spec : InjectSpec) (entry : Inj) (reg : Registry) :
    DispatchOut :=
  match spec.i with
  | some (.error e) => ⟨.raised e, reg, []⟩
  | some (.ok icode) =>
      ⟨.respond 0 none, regSet reg spec.id { entry with i := some icode }, []⟩
  | none =>
      ⟨.respond 0 none, regSet reg spec.id { entry with i := some defaultInvoker }, []⟩

/-- Dispatch of one decoded command (injection.py lines 111-180).
cmd is the decoded command name, cmdData the unpickled inject payload
(none when the frame had no separator or unpickling failed, lines 106-110),
path models sys.path.  Branch order follows the if/elif chain: test, bye,
path, inject, installed extension id, otherwise status 0x01.  Every except
block in this region starts with a bare raise, so all failures propagate
as Act.raised and the subsequent sends are unreachable. -/
def dispatch (cmd : String) (cmdData : Option InjectSpec) (path : List String)
    (reg : Registry) : DispatchOut :=
  if cmd = "test" then ⟨.respond 0 none, reg, []⟩
  else if cmd = "bye" then ⟨.closeSession, reg, []⟩
  else if cmd = "path" then ⟨.respond 0 (some (.strlist path)), reg, []⟩
  else if cmd = "inject" then
    match cmdData with
    | none => ⟨.raised .typeError, reg, []⟩
    | some spec =>
        let entry0 : Inj := { g := freshNs, u := spec.u, i := none }
        let reg1 := regSet reg spec.id entry0
        match spec.l with
        | some (.error e) => ⟨.raised e, reg1, []⟩
        | some (.ok lcode) =>
            match lcode freshNs with
            | .error e => ⟨.raised e, reg1, []⟩
            | .ok g1 =>
                let entry1 : Inj := { entry0 with g := g1 }
                finishInstall spec entry1 (regSet reg1 spec.id entry1)
        | none => finishInstall spec entry0 reg1
  else
    match regGet reg cmd with
    | some inj =>
        match inj.i with
        | none => ⟨.raised (.keyError "i"), reg, []⟩
        | some icode =>
            match icode inj.g with
            | .error e => ⟨.raised e, reg, []⟩
            | .ok g1 =>
                let reg1 := regSet reg cmd { inj with g := g1 }
                match nsGet g1 "_r" with
                | none => ⟨.raised (.keyError "_r"), reg1, []⟩
                | some r => ⟨.respond 0 (some r), reg1, []⟩
    | none => ⟨.respond 1 none, reg, []⟩

/-- Run a list of decoded commands through dispatch the way the while loop
does: keep reading after a response, stop after bye or after an exception
(which the bare raise on lines 179 and 184 lets escape). -/
def runCmds (path : List String) :
    List (String × Option InjectSpec) → Registry → List Act × Registry
  | [], reg => ([], reg)
  | (c, d) :: rest, reg =>
      let out := dispatch c d path reg
      match out.act with
      | .respond st p =>
          let next := runCmds path rest out.reg
          (.respond st p :: next.1, next.2)
      | a => ([a], out.reg)

/-- Little-endian value of the four length bytes, as struct.unpack with
format I computes it. -/
def unpackLE4 (b : List Nat) : Nat :=
  match b with
  | [b0, b1, b2, b3] => b0 + 256 * b1 + 65536 * b2 + 16777216 * b3
  | _ => 0

/-- Frame-reading step of the server loop (injection.py lines 93-99), as a
function of the bytes the call connection.recv(4) returned (recv hands back
at most 4 bytes, an empty result meaning the peer closed).  Returns
ok none for the peer-closed break, otherwise the code would read the
payload - but the payload reads are written client.recv(...) and no
variable named client is bound anywhere in loop or at module level, so
evaluating the expression raises NameError before any payload byte is
read; when recv returned fewer than 4 bytes, struct.unpack with format I
raises first.  Consequently this step never produces a payload. -/
def readFrame (b : List Nat) : Except PyExc (Option (List Nat)) :=
  if b = [] then .ok none
  else if b.length = 4 then
    let _l := unpackLE4 b
    .error (.nameError "client")
  else .error .structError

/-- Boolean view of whether a read step delivered a payload to dispatch. -/
def deliversPayload (r : Except PyExc (Option (List Nat))) : Bool :=
  match r with
  | .ok (some _) => true
  | _ => false

/-- Cleanup actions of the terminal section (injection.py lines 186-213). -/
inductive CleanupAct where
  | unloadRun (id : String)
  | serverClosed
  | clientsDec
  | socketUnlinked
  | exited
  deriving DecidableEq, Repr

/-- Unloader pass (injection.py lines 186-197): for each entry with an
unloader source, compile and execute it in the entry namespace.  The
except block guarding it starts with a bare raise (line 196), so the first
failure escapes, skipping the remaining unloaders; the pass below the
raise is unreachable.  Returns the actions performed and the escaping
exception if any. -/
def runUnloaders : Registry → List CleanupAct × Option PyExc
  | [] => ([], none)
  | (id, inj) :: rest =>
      match inj.u with
      | none => runUnloaders rest
      | some (.error e) => ([], some e)
      | some (.ok ucode) =>
          match ucode inj.g with
          | .error e => ([], some e)
          | .ok _ =>
              let next := runUnloaders rest
              (.unloadRun id :: next.1, next.2)

/-- Outcome of one whole server session: finished carries the cleanup
actions of the terminal section, crashed carries the escaping exception
together with the cleanup actions that still ran before it escaped. -/
inductive SessionOutcome where
  | finished (acts : List CleanupAct)
  | crashed (e : PyExc) (acts : List CleanupAct)
  deriving DecidableEq, Repr

/-- Terminal section reached by falling out of the while loop
(injection.py lines 186-213): run the unloaders, then close the listening
socket, decrement the client counter, unlink the rendezvous socket and
call os._exit(0).  An unloader failure escapes before any of the later
steps run. -/
def sessionEnd (reg : Registry) : SessionOutcome :=
  match runUnloaders reg with
  | (acts, some e) => .crashed e acts
  | (acts, none) =>
      .finished (acts ++ [.serverClosed, .clientsDec, .socketUnlinked, .exited])

/-- External events of the read loop: the bytes one recv(4) call returns
(an empty chunk meaning the peer closed), or the 60 second socket timeout
firing while blocked in recv. -/
inductive RecvEv where
  | chunk (b : List Nat)
  | timedOut

/-- The while loop of the connected session (injection.py lines 91-182)
together with its exit paths.  A read timeout or any exception from the
read step hits the bare raise on lines 102-103 and then the bare raise on
lines 183-184, so it escapes loop() with no cleanup at all; only the
peer-closed break (empty recv result, line 101) falls through to the
terminal section.  The payload case, where the source would dispatch the
received command, is unreachable because readFrame never returns ok with
a payload (every branch of readFrame with nonempty input is an error), so
this loop never reaches dispatch. -/
def sessionRun (reg : Registry) : List RecvEv → SessionOutcome
  | [] => .crashed .socketTimeout []
  | .timedOut :: _ => .crashed .socketTimeout []
  | .chunk b :: rest =>
      match readFrame b with
      | .error e => .crashed e []
      | .ok none => sessionEnd reg
      | .ok (some _) => sessionRun reg rest

/-- Whole body of loop() after the socket is bound (injection.py lines
85-213): if no peer connects within the 60 second accept timeout,
server.accept() raises socket.timeout, the bare raise on line 184
re-raises it, and the terminal section never runs; otherwise the
injections dict starts empty and the read loop runs. -/
def loopRun (accepted : Bool) (recvs : List RecvEv) : SessionOutcome :=
  if accepted then sessionRun [] recvs else .crashed .socketTimeout []

/-! Concrete extension codes and registries used by the scenario theorems. -/

/-- Denotation of an invoker whose source keeps a counter n in its own
namespace, increments it on each call and returns it (together with the
appended line _r = injection()). -/
def counterInvoker : Code := fun g =>
  let c : Int :=
    match nsGet g "n" with
    | some (.int k) => k
    | _ => 0
  .ok (nsSet (nsSet g "n" (.int (c + 1))) "_r" (.int (c + 1)))

/-- Denotation of an invoker whose source raises when executed. -/
def raisingInvoker : Code := fun _ => .error .runtimeError

/-- Denotation of an unloader that records its run in its namespace. -/
def markingUnloader : Code := fun g => .ok (nsSet g "unloaded" (.int 1))

/-- Denotation of an unloader that raises when executed. -/
def raisingUnloader : Code := fun _ => .error .runtimeError

/-- Inject payload for extension probe1: no loader, no unloader, an
invoker that increments and returns a counter kept in the namespace. -/
def probe1Spec : InjectSpec :=
  { id := "probe1", l := none, u := none, i := some (.ok counterInvoker) }

/-- Inject payload for extension probe2: installed without an invoker
source, so the server compiles the default source _r = None for it. -/
def probe2Spec : InjectSpec :=
  { id := "probe2", l := none, u := none, i := none }

/-- Registry holding one installed extension probe1 whose invoker raises
when executed. -/
def failingReg : Registry :=
  [("probe1", { g := freshNs, u := none, i := some raisingInvoker })]

/-- Registry holding one installed extension x carrying an unloader and a
marker value in its namespace, used to observe what a re-install does. -/
def regWithX : Registry :=
  [("x", { g := nsSet freshNs "marker" (.int 7),
           u := some (.ok markingUnloader), i := some defaultInvoker })]

/-- Inject payload that re-installs id x with fresh empty sources. -/
def reinstallXSpec : InjectSpec := { id := "x", l := none, u := none, i := none }

/-- Registry with two unloader-carrying extensions, the first of which
raises during unload. -/
def regUnloadBad : Registry :=
  [("a", { g := freshNs, u := some (.ok raisingUnloader), i := some defaultInvoker }),
   ("b", { g := freshNs, u := some (.ok markingUnloader), i := some defaultInvoker })]

/-! Pager engine, embedded from GenericPlugin.handle_pager_event
(src/pptop/__init__.py lines 78-161).  The attributes cursor, shift and
hshift are Python ints, so they are modelled as Int; height is the curses
window height, max_pos is len(self.dtd) - 1. -/

/-- One table row: an ordered mapping from column key to the string form
of the displayed value. -/
abbrev Row : Type := List (String × String)

/-- Mutable pager fields of a plugin that handle_pager_event touches
(initialised in GenericPlugin.__init__: cursor = shift = hshift = 0,
sorting_col = None, sorting_rev = True). -/
structure PagerState where
  cursor : Int
  shift : Int
  hshift : Int
  sorting_col : Option String
  sorting_rev : Bool
  deriving DecidableEq, Repr

/-- Initial pager state set by GenericPlugin.__init__. -/
def pager0 : PagerState :=
  { cursor := 0, shift := 0, hshift := 0, sorting_col := none, sorting_rev := true }

/-- Sort-column selection of the kLFT3 and kRIT3 branch (lines 87-98):
default the column to cols[0], then look the current column up in cols
(a lookup failure is swallowed by the except on lines 99-100 and leaves
the column as already assigned), move one step right or left and wrap.
The degenerate case of a first row with no columns (where cols[0] would
raise IndexError) is modelled as leaving the column unset; every table in
this program has at least one column. -/
def sortSel (cols : List String) (toRight : Bool) (sc : Option String) :
    Option String :=
  let sc0 := match sc with
    | none => cols.head?
    | some c => some c
  match sc0 with
  | none => none
  | some c =>
      match cols.findIdx? (fun x => x = c) with
      | none => some c
      | some pos =>
          let p : Int := (pos : Int) + (if toRight then 1 else -1)
          let p := if p > (cols.length : Int) - 1 then 0 else p
          let p := if p < 0 then (cols.length : Int) - 1 else p
          some (cols.getD p.toNat "")

/-- Sorting-key section of the handler (lines 85-104); it only mutates
sorting_col and sorting_rev.  hasRows models the truthiness test
if self.dtd, cols models list(self.dtd[0]). -/
def sortStep (se : Bool) (cols : List String) (hasRows : Bool) (k : String)
    (s : PagerState) : PagerState :=
  if se then
    if k = "kLFT3" ∨ k = "kRIT3" then
      if hasRows then { s with sorting_col := sortSel cols (k = "kRIT3") s.sorting_col }
      else s
    else if k = "kDN3" then { s with sorting_rev := false }
    else if k = "kUP3" then { s with sorting_rev := true }
    else s
  else s

/-- Horizontal-key chain (lines 105-110): KEY_LEFT decrements hshift and
clamps it at 0, KEY_RIGHT increments it. -/
def lrStep (k : String) (s : PagerState) : PagerState :=
  if k = "KEY_LEFT" then
    let h := s.hshift - 1
    { s with hshift := if h < 0 then 0 else h }
  else if k = "KEY_RIGHT" then { s with hshift := s.hshift + 1 }
  else s

/-- Vertical-key chain (lines 111-139), a separate if/elif chain run after
the horizontal one.  ce is cursor_enabled. -/
def vStep (ce : Bool) (height max_pos : Int) (k : String) (s : PagerState) :
    PagerState :=
  if k = "KEY_DOWN" then
    if ce then
      let c := s.cursor + 1
      let c := if c > max_pos then max_pos else c
      if c - s.shift ≥ height - 1 then { s with cursor := c, shift := s.shift + 1 }
      else { s with cursor := c }
    else { s with cursor := s.cursor + 1, shift := s.shift + 1 }
  else if k = "KEY_UP" then
    if ce then { s with cursor := s.cursor - 1 }
    else { s with cursor := s.cursor - 1, shift := s.shift - 1 }
  else if k = "KEY_NPAGE" then
    { s with cursor := s.cursor + height - 1, shift := s.shift + height - 1 }
  else if k = "KEY_PPAGE" then
    { s with cursor := s.cursor - height - 1, shift := s.shift - height - 1 }
  else if k = "KEY_HOME" then { s with hshift := 0, cursor := 0, shift := 0 }
  else if k = "KEY_END" then { s with cursor := max_pos, shift := max_pos - height + 2 }
  else s

/-- Post-key clamps (lines 140-148), still inside the key-event branch. -/
def keyClamp (s : PagerState) : PagerState :=
  let s := if s.cursor < 0 then { s with shift := s.shift - 1, cursor := 0 } else s
  let s :=
    if s.cursor - s.shift < 0 then
      let c := s.shift - 1
      { s with cursor := if c < 0 then 0 else c, shift := s.shift - 1 }
    else s
  if s.shift < 0 then { s with shift := 0 } else s

/-- Final clamping section (lines 149-161), run on every call whether or
not a key event is pending.  Note that the special case tests
max_pos == 0, which means a table of exactly one row; an empty table has
max_pos == -1 and falls into the general branch. -/
def finalClamp (height max_pos : Int) (s : PagerState) : PagerState :=
  if max_pos = 0 then { s with cursor := 0, shift := 0 }
  else
    let s :=
      if s.cursor > max_pos then
        let sh := max_pos - height + 2
        { s with cursor := max_pos, shift := if sh < 0 then 0 else sh }
      else s
    if max_pos < height then
      let s := { s with shift := 0 }
      if s.cursor > max_pos then { s with cursor := max_pos - 1 } else s
    else s

/-- Whole handler handle_pager_event (lines 78-161) for one call: k = none
models a falsy key_event (the key sections are skipped), otherwise the
sorting, horizontal, vertical and clamp sections run in source order, and
the final clamping section always runs. -/
def pagerStep (ce se : Bool) (height : Int) (rows : List Row)
    (k : Option String) (s : PagerState) : PagerState :=
  let max_pos : Int := (rows.length : Int) - 1
  let s1 :=
    match k with
    | none => s
    | some key =>
        keyClamp (vStep ce height max_pos key
          (lrStep key (sortStep se ((rows.headD []).map Prod.fst)
            (!rows.isEmpty) key s)))
  finalClamp height max_pos s1

/-- Process a whole sequence of handler calls, as the dashboard does when
it routes successive key events to the active view. -/
def pagerRun (ce se : Bool) (height : Int) (rows : List Row)
    (keys : List (Option String)) (s : PagerState) : PagerState :=
  keys.foldl (fun st k => pagerStep ce se height rows k st) s

/-! Filtering, embedded from GenericPlugin.apply_filter
(src/pptop/__init__.py lines 304-318). -/

/-- Character-list prefix test, written out so that the substring test
below matches what str.find computes. -/
def prefixMatch : List Char → List Char → Bool
  | [], _ => true
  | _ :: _, [] => false
  | a :: as, b :: bs => a = b && prefixMatch as bs

/-- Substring containment of pat in hay, the truth of
hay.find(pat) > -1 for a nonempty pat. -/
def subMatch (pat : List Char) : List Char → Bool
  | [] => pat.isEmpty
  | h :: hs => prefixMatch pat (h :: hs) || subMatch pat hs

/-- Row test of the filter loop (lines 314-318): keep the row when the
lowercased string form of at least one column value contains the filter
text; the filter text itself is used verbatim, not lowercased. -/
def rowMatches (filt : String) (r : Row) : Bool :=
  r.any (fun kv => subMatch filt.toList (kv.2.toList.map Char.toLower))

/-- The two row lists of a plugin together with the aliasing fact the
source creates: after the empty-filter branch runs self.dtd = self.data,
both attributes name the same list object, so mutating one mutates the
other.  aliased records exactly that sharing. -/
structure FState where
  data : List Row
  dtd : List Row
  aliased : Bool
  deriving DecidableEq, Repr

/-- apply_filter (lines 304-318).  Empty filter: bind dtd to the very
data list object (no copy).  Nonempty filter: first self.dtd.clear()
empties the dtd list object in place - when dtd aliases data this also
empties data - then the loop rescans self.data and appends the matching
rows, leaving dtd a list object distinct from data. -/
def apply_filter (filt : String) (st : FState) : FState :=
  if filt = "" then { st with dtd := st.data, aliased := true }
  else
    let data1 := if st.aliased then [] else st.data
    { data := data1, dtd := data1.filter (rowMatches filt), aliased := false }

/-- Concrete row and states for the filter scenarios. -/
def rowA : Row := [("name", "abc")]

def fstate0 : FState := { data := [rowA], dtd := [], aliased := false }

/-- Concrete rows and states for the pager scenarios. -/
def rows3 : List Row := [[("a", "1")], [("a", "2")], [("a", "3")]]

def pagerS10 : PagerState :=
  { cursor := 10, shift := 10, hshift := 0, sorting_col := none, sorting_rev := true }

/-- Extension entry installed with the default invoker, used as a witness
registry. -/
def probeDefault : Inj := { g := freshNs, u := none, i := some defaultInvoker }

def regDefault : Registry := [("probe2", probeDefault)]

/-! Supporting lemmas. -/

theorem assocGet_set_self {α : Type} (m : List (String × α)) (k : String) (v : α) :
    assocGet (assocSet m k v) k = some v := by
  induction m with
  | nil => simp [assocSet, assocGet]
  | cons hd tl ih =>
      unfold assocSet
      by_cases hk : hd.1 = k
      · simp [hk, assocGet]
      · simpa [hk, assocGet] using ih

theorem assocSet_keys {α : Type} (m : List (String × α)) (k : String) (v : α) :
    (assocSet m k v).map Prod.fst =
      if k ∈ m.map Prod.fst then m.map Prod.fst else m.map Prod.fst ++ [k] := by
  induction m with
  | nil => simp [assocSet]
  | cons hd tl ih =>
      unfold assocSet
      by_cases hk : hd.1 = k
      · simp [hk]
      · have hne : k ≠ hd.1 := fun h => hk h.symm
        by_cases hmem : k ∈ tl.map Prod.fst <;> simp [hk, hne, hmem, ih]

theorem assocSet_nodup {α : Type} (m : List (String × α)) (k : String) (v : α)
    (h : (m.map Prod.fst).Nodup) : ((assocSet m k v).map Prod.fst).Nodup := by
  rw [assocSet_keys]
  split_ifs with hmem
  · exact h
  · simp [List.nodup_append, h, hmem]

theorem nsGet_set_self (g : PyNs) (k : String) (v : PyVal) :
    nsGet (nsSet g k v) k = some v := assocGet_set_self g k v

theorem finishInstall_evs (spec : InjectSpec) (entry : Inj) (reg : Registry) :
    (finishInstall spec entry reg).evs = [] := by
  unfold finishInstall
  rcases hi : spec.i with _ | (e | c) <;> rfl

theorem dispatch_evs (cmd : String) (d : Option InjectSpec) (path : List String)
    (reg : Registry) : (dispatch cmd d path reg).evs = [] := by
  unfold dispatch
  split_ifs <;> try rfl
  · rcases d with _ | spec
    · rfl
    · dsimp only
      rcases hl : spec.l with _ | (e | lcode)
      · exact finishInstall_evs ..
      · rfl
      · dsimp only
        rcases hg : lcode freshNs with e | g1
        · rfl
        · exact finishInstall_evs ..
  · rcases hr : regGet reg cmd with _ | inj
    · rfl
    · dsimp only
      rcases hi : inj.i with _ | icode
      · rfl
      · dsimp only
        rcases hg : icode inj.g with e | g1
        · rfl
        · dsimp only
          rcases hv : nsGet g1 "_r" with _ | r <;> rfl

theorem finishInstall_nodup (spec : InjectSpec) (entry : Inj) (reg : Registry)
    (h : (reg.map Prod.fst).Nodup) :
    (((finishInstall spec entry reg).reg).map Prod.fst).Nodup := by
  unfold finishInstall
  rcases hi : spec.i with _ | (e | c)
  · exact assocSet_nodup _ _ _ h
  · exact h
  · exact assocSet_nodup _ _ _ h

theorem dispatch_nodup (cmd : String) (d : Option InjectSpec) (path : List String)
    (reg : Registry) (h : (reg.map Prod.fst).Nodup) :
    (((dispatch cmd d path reg).reg).map Prod.fst).Nodup := by
  unfold dispatch
  split_ifs <;> try exact h
  · rcases d with _ | spec
    · exact h
    · dsimp only
      rcases hl : spec.l with _ | (e | lcode)
      · exact finishInstall_nodup _ _ _ (assocSet_nodup _ _ _ h)
      · exact assocSet_nodup _ _ _ h
      · dsimp only
        rcases hg : lcode freshNs with e | g1
        · exact assocSet_nodup _ _ _ h
        · exact finishInstall_nodup _ _ _
            (assocSet_nodup _ _ _ (assocSet_nodup _ _ _ h))
  · rcases hr : regGet reg cmd with _ | inj
    · exact h
    · dsimp only
      rcases hi : inj.i with _ | icode
      · exact h
      · dsimp only
        rcases hg : icode inj.g with e | g1
        · exact h
        · dsimp only
          rcases hv : nsGet g1 "_r" with _ | r <;> exact assocSet_nodup _ _ _ h

theorem prefixMatch_iff (p l : List Char) : prefixMatch p l = true ↔ p <+: l := by
  induction p generalizing l with
  | nil => simp [prefixMatch]
  | cons a as ih =>
      cases l with
      | nil => simp [prefixMatch]
      | cons b bs => simp [prefixMatch, List.cons_prefix_cons, ih]

theorem subMatch_iff (p l : List Char) : subMatch p l = true ↔ p <:+: l := by
  induction l with
  | nil =>
      cases p <;> simp [subMatch]
  | cons b bs ih =>
      simp [subMatch, List.infix_cons_iff, prefixMatch_iff, ih, or_comm]

theorem sortStep_cursor (se : Bool) (cols : List String) (hr : Bool) (k : String)
    (s : PagerState) : (sortStep se cols hr k s).cursor = s.cursor := by
  unfold sortStep; split_ifs <;> rfl

theorem sortStep_shift (se : Bool) (cols : List String) (hr : Bool) (k : String)
    (s : PagerState) : (sortStep se cols hr k s).shift = s.shift := by
  unfold sortStep; split_ifs <;> rfl

theorem lrStep_cursor (k : String) (s : PagerState) :
    (lrStep k s).cursor = s.cursor := by
  unfold lrStep; split_ifs <;> rfl

theorem lrStep_shift (k : String) (s : PagerState) :
    (lrStep k s).shift = s.shift := by
  unfold lrStep; split_ifs <;> rfl

theorem vStep_diff (ce : Bool) (h mp : Int) (k : String) (s : PagerState)
    (hh : 2 ≤ h) (h4 : s.cursor - s.shift ≤ h - 1) :
    (vStep ce h mp k s).cursor - (vStep ce h mp k s).shift ≤ h - 1 := by
  unfold vStep
  simp only [apply_ite PagerState.cursor, apply_ite PagerState.shift]
  split_ifs <;> omega

theorem keyClamp_inv (h : Int) (s : PagerState) (hh : 2 ≤ h)
    (h4 : s.cursor - s.shift ≤ h - 1) :
    0 ≤ (keyClamp s).shift ∧ 0 ≤ (keyClamp s).cursor - (keyClamp s).shift ∧
    (keyClamp s).cursor - (keyClamp s).shift ≤ h - 1 := by
  unfold keyClamp
  simp only [apply_ite PagerState.cursor, apply_ite PagerState.shift]
  split_ifs <;> refine ⟨by omega, by omega, by omega⟩

theorem keyClamp_cursor_nonneg (s : PagerState) : 0 ≤ (keyClamp s).cursor := by
  unfold keyClamp
  simp only [apply_ite PagerState.cursor, apply_ite PagerState.shift]
  split_ifs <;> omega

theorem finalClamp_inv (h mp : Int) (s : PagerState) (hh : 2 ≤ h) (hmp : 0 ≤ mp)
    (h1 : 0 ≤ s.shift) (h2 : 0 ≤ s.cursor - s.shift)
    (h4 : s.cursor - s.shift ≤ h - 1) :
    0 ≤ (finalClamp h mp s).shift ∧
    (finalClamp h mp s).shift ≤ (finalClamp h mp s).cursor ∧
    (finalClamp h mp s).cursor ≤ mp ∧
    (finalClamp h mp s).cursor - (finalClamp h mp s).shift ≤ h - 1 := by
  unfold finalClamp
  simp only [apply_ite PagerState.cursor, apply_ite PagerState.shift]
  split_ifs <;> refine ⟨by omega, by omega, by omega, by omega⟩

theorem finalClamp_empty (h : Int) (s : PagerState) (hh : 1 ≤ h)
    (hc : -1 ≤ s.cursor) :
    (finalClamp h (-1) s).cursor = -1 ∧ (finalClamp h (-1) s).shift = 0 := by
  unfold finalClamp
  simp only [apply_ite PagerState.cursor, apply_ite PagerState.shift]
  split_ifs <;> constructor <;> first | omega | assumption

theorem pagerStep_none (ce se : Bool) (h : Int) (rows : List Row)
    (s : PagerState) :
    pagerStep ce se h rows none s = finalClamp h ((rows.length : Int) - 1) s := rfl

theorem pagerStep_some (ce se : Bool) (h : Int) (rows : List Row) (key : String)
    (s : PagerState) :
    pagerStep ce se h rows (some key) s =
      finalClamp h ((rows.length : Int) - 1)
        (keyClamp (vStep ce h ((rows.length : Int) - 1) key
          (lrStep key (sortStep se ((rows.headD []).map Prod.fst)
            (!rows.isEmpty) key s)))) := rfl

theorem pagerStep_inv (ce se : Bool) (h : Int) (rows : List Row)
    (k : Option String) (s : PagerState) (hh : 2 ≤ h) (hn : rows ≠ [])
    (h1 : 0 ≤ s.shift) (h2 : s.shift ≤ s.cursor)
    (h3 : s.cursor ≤ (rows.length : Int) - 1)
    (h4 : s.cursor - s.shift ≤ h - 1) :
    0 ≤ (pagerStep ce se h rows k s).shift ∧
    (pagerStep ce se h rows k s).shift ≤ (pagerStep ce se h rows k s).cursor ∧
    (pagerStep ce se h rows k s).cursor ≤ (rows.length : Int) - 1 ∧
    (pagerStep ce se h rows k s).cursor - (pagerStep ce se h rows k s).shift
      ≤ h - 1 := by
  have hlen : 0 < rows.length := List.length_pos.mpr hn
  have hmp : (0 : Int) ≤ (rows.length : Int) - 1 := by omega
  cases k with
  | none =>
      rw [pagerStep_none]
      have := finalClamp_inv h ((rows.length : Int) - 1) s hh hmp h1 (by omega) h4
      exact ⟨this.1, by omega, this.2.2.1, this.2.2.2⟩
  | some key =>
      rw [pagerStep_some]
      set s0 := sortStep se ((rows.headD []).map Prod.fst) (!rows.isEmpty) key s with hs0
      have ec : (lrStep key s0).cursor = s.cursor := by
        rw [lrStep_cursor, hs0, sortStep_cursor]
      have es : (lrStep key s0).shift = s.shift := by
        rw [lrStep_shift, hs0, sortStep_shift]
      have hv := vStep_diff ce h ((rows.length : Int) - 1) key (lrStep key s0) hh
        (by rw [ec, es]; omega)
      have hk := keyClamp_inv h _ hh hv
      have := finalClamp_inv h ((rows.length : Int) - 1) _ hh hmp hk.1 hk.2.1 hk.2.2
      exact ⟨this.1, by omega, this.2.2.1, this.2.2.2⟩

theorem pagerStep_empty (ce se : Bool) (h : Int) (k : Option String)
    (s : PagerState) (hh : 1 ≤ h) (hc : -1 ≤ s.cursor) :
    (pagerStep ce se h [] k s).cursor = -1 ∧ (pagerStep ce se h [] k s).shift = 0 := by
  have h0 : ((([] : List Row).length : Int) - 1) = -1 := by simp
  cases k with
  | none =>
      rw [pagerStep_none, h0]
      exact finalClamp_empty h s hh hc
  | some key =>
      rw [pagerStep_some, h0]
      exact finalClamp_empty h _ hh
        (le_trans (show (-1 : Int) ≤ 0 by norm_num) (keyClamp_cursor_nonneg _))

theorem pagerRun_cons (ce se : Bool) (h : Int) (rows : List Row)
    (k : Option String) (keys : List (Option String)) (s : PagerState) :
    pagerRun ce se h rows (k :: keys) s =
      pagerRun ce se h rows keys (pagerStep ce se h rows k s) := rfl

theorem pagerRun_inv (ce se : Bool) (h : Int) (rows : List Row)
    (keys : List (Option String)) (s : PagerState) (hh : 2 ≤ h) (hn : rows ≠ [])
    (h1 : 0 ≤ s.shift) (h2 : s.shift ≤ s.cursor)
    (h3 : s.cursor ≤ (rows.length : Int) - 1)
    (h4 : s.cursor - s.shift ≤ h - 1) :
    0 ≤ (pagerRun ce se h rows keys s).shift ∧
    (pagerRun ce se h rows keys s).shift ≤ (pagerRun ce se h rows keys s).cursor ∧
    (pagerRun ce se h rows keys s).cursor ≤ (rows.length : Int) - 1 ∧
    (pagerRun ce se h rows keys s).cursor - (pagerRun ce se h rows keys s).shift
      ≤ h - 1 := by
  induction keys generalizing s with
  | nil => exact ⟨h1, h2, h3, h4⟩
  | cons k rest ih =>
      rw [pagerRun_cons]
      have step := pagerStep_inv ce se h rows k s hh hn h1 h2 h3 h4
      exact ih _ step.1 (by omega) step.2.2.1 step.2.2.2

theorem pagerRun_empty (ce se : Bool) (h : Int) (keys : List (Option String))
    (s : PagerState) (hh : 1 ≤ h) (hc : -1 ≤ s.cursor) (hk : keys ≠ []) :
    (pagerRun ce se h [] keys s).cursor = -1 ∧
    (pagerRun ce se h [] keys s).shift = 0 := by
  induction keys generalizing s with
  | nil => exact absurd rfl hk
  | cons k rest ih =>
      rw [pagerRun_cons]
      rcases Decidable.em (rest = []) with hr | hr
      · subst hr
        exact pagerStep_empty ce se h k s hh hc
      · exact ih _ (by
          have := pagerStep_empty ce se h k s hh hc
          omega) hr

/-! Claim theorems. -/

/-- C1: the claim states that the frame-reading step reads exactly 4 length
bytes and then exactly that many payload bytes, delivering every peer
payload intact.  The code cannot do this: the payload reads are spelled
client.recv although the bound variable is connection, so any frame header
that arrives raises NameError; a short header read raises struct.error;
the read step therefore never delivers a payload to the dispatcher.  The
theorem evaluates the embedded read step: it never yields a payload, and
on the length header of the frame carrying the 4-byte payload test it
raises NameError about the name client. -/
theorem c1_read_frame_never_delivers :
    (∀ b, deliversPayload (readFrame b) = false) ∧
    readFrame [4, 0, 0, 0] = .error (.nameError "client") ∧
    readFrame [4, 0] = .error .structError := by
  refine ⟨?_, rfl, rfl⟩
  intro b
  unfold readFrame deliversPayload
  split_ifs <;> rfl

/-- C2: the claim states that a handler exception is answered with status
0x02 and the loop keeps serving.  In the code the except block guarding
dispatch starts with a bare raise and the send of 0x02 below it is
unreachable, so the exception escapes and kills the loop: dispatching the
installed extension probe1 whose invoker raises produces no response, and
a subsequent well-formed test command is never processed. -/
theorem c2_handler_failure_crashes_loop :
    (dispatch "probe1" none [] failingReg).act = .raised .runtimeError ∧
    (runCmds [] [("probe1", none), ("test", none)] failingReg).1
      = [.raised .runtimeError] := ⟨rfl, rfl⟩

/-- C3: the claim states that every termination path runs the full cleanup
sequence (unloaders, close, unlink, counter decrement, context exit) and
that an unloader error does not abort the rest.  In the code the except
blocks on lines 102-103 and 183-185 start with a bare raise, so an accept
timeout or any read failure escapes loop() with no cleanup at all, and
the unloader pass itself re-raises on the first unloader error, skipping
the remaining unloaders and the whole tail of the sequence.  Only the
peer-closed break reaches the full cleanup. -/
theorem c3_cleanup_skipped_on_errors :
    loopRun false [] = .crashed .socketTimeout [] ∧
    loopRun true [.chunk [4, 0, 0, 0]] = .crashed (.nameError "client") [] ∧
    loopRun true [.chunk []] =
      .finished [.serverClosed, .clientsDec, .socketUnlinked, .exited] ∧
    sessionEnd regUnloadBad = .crashed .runtimeError [] := ⟨rfl, rfl, rfl, rfl⟩

/-- C5: the dispatcher answers the command test with the bare status byte
0x00 and no result, and answers any command that is neither a built-in
(test, bye, path, inject) nor an installed extension id with the bare
status byte 0x01. -/
theorem c5_test_ok_unknown_notfound :
    (∀ d path reg, (dispatch "test" d path reg).act = .respond 0 none) ∧
    (∀ cmd d path reg, cmd ≠ "test" → cmd ≠ "bye" → cmd ≠ "path" →
      cmd ≠ "inject" → regGet reg cmd = none →
      (dispatch cmd d path reg).act = .respond 1 none) := by
  constructor
  · intro d path reg; rfl
  · intro cmd d path reg h1 h2 h3 h4 h5
    unfold dispatch
    rw [if_neg h1, if_neg h2, if_neg h3, if_neg h4, h5]

/-- Witness for C5 at the concrete inputs of the spec scenarios: the
command test on an empty registry, and the unknown command frobnicate. -/
theorem c5_test_ok_unknown_notfound_witness :
    (dispatch "test" none [] []).act = .respond 0 none ∧
    (dispatch "frobnicate" none [] []).act = .respond 1 none :=
  ⟨c5_test_ok_unknown_notfound.1 none [] [],
   c5_test_ok_unknown_notfound.2 "frobnicate" none [] []
     (by decide) (by decide) (by decide) (by decide) rfl⟩

/-- C6: every invocation of an installed extension executes the stored
compiled invoker against the stored namespace and stores the transformed
namespace back, so state persists across invocations of one session: the
scenario installs probe1 with a counter invoker and gets the strictly
increasing answers 1 and 2 on two successive calls, and installs probe2
without an invoker source and gets the pickled value None on every call;
the general parts say that a successful invocation stores the transformed
namespace under the same id, and that an extension holding the default
invoker always answers the pickled None. -/
theorem c6_invoker_namespace_persistence :
    ((runCmds [] [("inject", some probe1Spec), ("probe1", none), ("probe1", none),
        ("inject", some probe2Spec), ("probe2", none), ("probe2", none)] []).1 =
      [.respond 0 none, .respond 0 (some (.int 1)), .respond 0 (some (.int 2)),
       .respond 0 none, .respond 0 (some .pynone), .respond 0 (some .pynone)]) ∧
    (∀ cmd d path reg inj g1 f, cmd ≠ "test" → cmd ≠ "bye" → cmd ≠ "path" →
      cmd ≠ "inject" → regGet reg cmd = some inj → inj.i = some f →
      f inj.g = .ok g1 →
      (regGet (dispatch cmd d path reg).reg cmd).map Inj.g = some g1) ∧
    (∀ cmd d path reg inj, cmd ≠ "test" → cmd ≠ "bye" → cmd ≠ "path" →
      cmd ≠ "inject" → regGet reg cmd = some inj → inj.i = some defaultInvoker →
      (dispatch cmd d path reg).act = .respond 0 (some .pynone)) := by
  refine ⟨rfl, ?_, ?_⟩
  · intro cmd d path reg inj g1 f h1 h2 h3 h4 h5 h6 h7
    unfold dispatch
    rw [if_neg h1, if_neg h2, if_neg h3, if_neg h4, h5]
    dsimp only
    rw [h6]
    dsimp only
    rw [h7]
    dsimp only
    rcases hv : nsGet g1 "_r" with _ | r <;>
      simp [regGet, regSet, assocGet_set_self]
  · intro cmd d path reg inj h1 h2 h3 h4 h5 h6
    unfold dispatch
    rw [if_neg h1, if_neg h2, if_neg h3, if_neg h4, h5]
    dsimp only
    rw [h6]
    dsimp only [defaultInvoker]
    rw [nsGet_set_self]

/-- Witness for C6 at a concrete registry holding probe2 with the default
invoker: the invocation stores the namespace extended with the result
variable, and answers the pickled None. -/
theorem c6_invoker_namespace_persistence_witness :
    ((regGet (dispatch "probe2" none [] regDefault).reg "probe2").map Inj.g
       = some (nsSet freshNs "_r" PyVal.pynone)) ∧
    (dispatch "probe2" none [] regDefault).act = .respond 0 (some .pynone) :=
  ⟨c6_invoker_namespace_persistence.2.1 "probe2" none [] regDefault probeDefault
     (nsSet freshNs "_r" PyVal.pynone) defaultInvoker
     (by decide) (by decide) (by decide) (by decide) rfl rfl rfl,
   c6_invoker_namespace_persistence.2.2 "probe2" none [] regDefault probeDefault
     (by decide) (by decide) (by decide) (by decide) rfl rfl⟩

/-- C7, counterexample: the claim states that re-installing an id runs the
previous unloader in the previous namespace before the entry is replaced.
At the concrete registry holding extension x (with an unloader and a
marker in its namespace), the inject step for the same id emits no
unloader execution at all and simply replaces the entry with a fresh
namespace; the previous namespace with its marker is discarded. -/
theorem c7_counterexample :
    (dispatch "inject" (some reinstallXSpec) [] regWithX).evs = [] ∧
    ((regGet (dispatch "inject" (some reinstallXSpec) [] regWithX).reg "x").map Inj.g)
      = some freshNs ∧
    (regGet regWithX "x").map Inj.g = some (nsSet freshNs "marker" (.int 7)) ∧
    regWithX.map Prod.fst = ["x"] := ⟨rfl, rfl, rfl, rfl⟩

/-- C7, amended: each extension id maps to at most one live entry (the
injections dict preserves key uniqueness across every dispatch step), and
re-installing an existing id replaces the entry immediately with a fresh
namespace; no dispatch step ever executes an unloader, so the previous
unloader is not run at replacement time (unloaders run only during
session cleanup, for the entries present then). -/
theorem c7_amended_registry :
    (∀ cmd d path reg, (dispatch cmd d path reg).evs = []) ∧
    (∀ cmd d path reg, (reg.map Prod.fst).Nodup →
      (((dispatch cmd d path reg).reg).map Prod.fst).Nodup) ∧
    (∀ path reg spec, spec.l = none → spec.i = none →
      ((regGet (dispatch "inject" (some spec) path reg).reg spec.id).map Inj.g)
        = some freshNs) := by
  refine ⟨dispatch_evs, dispatch_nodup, ?_⟩
  intro path reg spec hl hi
  have hstep : dispatch "inject" (some spec) path reg =
      finishInstall spec { g := freshNs, u := spec.u, i := none }
        (regSet reg spec.id { g := freshNs, u := spec.u, i := none }) := by
    unfold dispatch
    rw [if_neg (by decide), if_neg (by decide), if_neg (by decide), if_pos rfl]
    dsimp only
    rw [hl]
  rw [hstep]
  unfold finishInstall
  rw [hi]
  dsimp only
  simp [regGet, regSet, assocGet_set_self]

/-- Witness for C7 amended at the concrete registry holding x: key
uniqueness is preserved by the re-install, and the replaced entry holds a
fresh namespace. -/
theorem c7_amended_registry_witness :
    (((dispatch "inject" (some reinstallXSpec) [] regWithX).reg).map Prod.fst).Nodup ∧
    ((regGet (dispatch "inject" (some reinstallXSpec) [] regWithX).reg "x").map Inj.g)
      = some freshNs :=
  ⟨c7_amended_registry.2.1 "inject" (some reinstallXSpec) [] regWithX (by decide),
   c7_amended_registry.2.2 [] regWithX reinstallXSpec rfl rfl⟩

/-- C4, counterexample: the claim forces cursor = scroll_offset = 0 when
the row count is 0, and keeps cursor and scroll_offset in [0, rowcount-1]
when it is positive.  On an empty table one handler call leaves the
cursor at -1 (the empty-table test in the source compares max_pos with 0,
which means one row, so the empty case falls into the general clamp), and
with viewport height 1 in continuous-scroll mode three KEY_DOWN events on
a 3-row table leave scroll_offset at 3, outside [0, 2] and above the
cursor. -/
theorem c4_counterexample :
    (pagerRun true true 3 [] [some "KEY_RESIZE"] pager0).cursor = -1 ∧
    ¬ (pagerRun true true 3 [] [some "KEY_RESIZE"] pager0).cursor = 0 ∧
    (pagerRun false true 1 rows3
      [some "KEY_DOWN", some "KEY_DOWN", some "KEY_DOWN"] pager0).shift = 3 ∧
    ¬ ((pagerRun false true 1 rows3
      [some "KEY_DOWN", some "KEY_DOWN", some "KEY_DOWN"] pager0).shift
        ≤ (rows3.length : Int) - 1) := by decide

/-- C4, amended: for viewport height at least 2, starting from the initial
state with cursor = scroll_offset = 0 and processing any finite sequence
of handler calls: with a positive row count, scroll_offset and cursor stay
in [0, rowcount-1] with scroll_offset ≤ cursor and
cursor - scroll_offset in [0, height-1]; with row count 0 and at least one
processed call, the handler leaves cursor = -1 and scroll_offset = 0
rather than forcing both to 0. -/
theorem c4_amended_invariant (ce se : Bool) (h : Int) (rows : List Row)
    (keys : List (Option String)) (s : PagerState) (hh : 2 ≤ h)
    (hc0 : s.cursor = 0) (hs0 : s.shift = 0) :
    (rows = [] → keys ≠ [] →
      (pagerRun ce se h rows keys s).cursor = -1 ∧
      (pagerRun ce se h rows keys s).shift = 0) ∧
    (rows ≠ [] →
      0 ≤ (pagerRun ce se h rows keys s).shift ∧
      (pagerRun ce se h rows keys s).shift
        ≤ (pagerRun ce se h rows keys s).cursor ∧
      (pagerRun ce se h rows keys s).cursor ≤ (rows.length : Int) - 1 ∧
      (pagerRun ce se h rows keys s).cursor
        - (pagerRun ce se h rows keys s).shift ≤ h - 1) := by
  constructor
  · intro hrows hk
    subst hrows
    exact pagerRun_empty ce se h keys s (by omega) (by omega) hk
  · intro hn
    have hlen : 0 < rows.length := List.length_pos.mpr hn
    exact pagerRun_inv ce se h rows keys s hh hn
      (by omega) (by omega) (by omega) (by omega)

/-- Witness for C4 amended on a 3-row table with viewport height 2 and one
KEY_DOWN event. -/
theorem c4_amended_invariant_witness :
    0 ≤ (pagerRun true true 2 rows3 [some "KEY_DOWN"] pager0).shift ∧
    (pagerRun true true 2 rows3 [some "KEY_DOWN"] pager0).shift
      ≤ (pagerRun true true 2 rows3 [some "KEY_DOWN"] pager0).cursor ∧
    (pagerRun true true 2 rows3 [some "KEY_DOWN"] pager0).cursor
      ≤ (rows3.length : Int) - 1 ∧
    (pagerRun true true 2 rows3 [some "KEY_DOWN"] pager0).cursor
      - (pagerRun true true 2 rows3 [some "KEY_DOWN"] pager0).shift ≤ 2 - 1 :=
  (c4_amended_invariant true true 2 rows3 [some "KEY_DOWN"] pager0
    (by norm_num) rfl rfl).2 (by decide)

/-- C9, counterexample: the claim states that page-down and page-up move
cursor and scroll_offset by exactly the viewport height (same magnitude
both ways) and that KEY_END sets scroll_offset to rowcount - height + 2.
With height 5 and max_pos 99 (rowcount 100) from cursor = shift = 10:
KEY_NPAGE moves to 14 (by height - 1, not 15), KEY_PPAGE moves to 4 (by
height + 1, not 5), and KEY_END sets shift to 96 = rowcount - height + 1,
not 97. -/
theorem c9_counterexample :
    (vStep true 5 99 "KEY_NPAGE" pagerS10).cursor = 14 ∧
    ¬ (vStep true 5 99 "KEY_NPAGE" pagerS10).cursor = pagerS10.cursor + 5 ∧
    (vStep true 5 99 "KEY_PPAGE" pagerS10).cursor = 4 ∧
    ¬ (vStep true 5 99 "KEY_PPAGE" pagerS10).cursor = pagerS10.cursor - 5 ∧
    (vStep true 5 99 "KEY_END" pagerS10).shift = 96 ∧
    ¬ (vStep true 5 99 "KEY_END" pagerS10).shift = (100 : Int) - 5 + 2 := by
  decide

/-- C9, amended: KEY_NPAGE moves cursor and scroll_offset together by
height - 1, KEY_PPAGE moves them together by height + 1 (different
magnitudes), KEY_HOME resets cursor, scroll_offset and h_offset to 0, and
KEY_END sets cursor to max_pos and scroll_offset to max_pos - height + 2
(that is, rowcount - height + 1), which the following clamp step bounds
below by 0 whenever height ≥ 2 and the table is nonempty. -/
theorem c9_amended_page_keys :
    (∀ (ce : Bool) (h mp : Int) (s : PagerState),
      (vStep ce h mp "KEY_NPAGE" s).cursor = s.cursor + h - 1 ∧
      (vStep ce h mp "KEY_NPAGE" s).shift = s.shift + h - 1 ∧
      (vStep ce h mp "KEY_PPAGE" s).cursor = s.cursor - h - 1 ∧
      (vStep ce h mp "KEY_PPAGE" s).shift = s.shift - h - 1 ∧
      (vStep ce h mp "KEY_HOME" s).cursor = 0 ∧
      (vStep ce h mp "KEY_HOME" s).shift = 0 ∧
      (vStep ce h mp "KEY_HOME" s).hshift = 0 ∧
      (vStep ce h mp "KEY_END" s).cursor = mp ∧
      (vStep ce h mp "KEY_END" s).shift = mp - h + 2) ∧
    (∀ (ce : Bool) (h mp : Int) (s : PagerState), 2 ≤ h → 0 ≤ mp →
      (keyClamp (vStep ce h mp "KEY_END" s)).cursor = mp ∧
      (keyClamp (vStep ce h mp "KEY_END" s)).shift = max 0 (mp - h + 2)) := by
  constructor
  · intro ce h mp s
    refine ⟨rfl, rfl, rfl, rfl, rfl, rfl, rfl, rfl, rfl⟩
  · intro ce h mp s hh hmp
    have hc : (vStep ce h mp "KEY_END" s).cursor = mp := rfl
    have hs : (vStep ce h mp "KEY_END" s).shift = mp - h + 2 := rfl
    unfold keyClamp
    simp only [apply_ite PagerState.cursor, apply_ite PagerState.shift]
    split_ifs <;> constructor <;> omega

/-- Witness for C9 amended at height 5, max_pos 99, from
cursor = shift = 10. -/
theorem c9_amended_page_keys_witness :
    (keyClamp (vStep true 5 99 "KEY_END" pagerS10)).cursor = 99 ∧
    (keyClamp (vStep true 5 99 "KEY_END" pagerS10)).shift = max 0 (99 - 5 + 2) :=
  c9_amended_page_keys.2 true 5 99 pagerS10 (by norm_num) (by norm_num)

/-- C8, counterexample: the claim states that the filtering step always
keeps exactly the rows with a matching column value.  After an
empty-filter pass has aliased the filtered list to the full list, a
nonempty filter clears both through the shared list object, so the row
with value abc is not kept by the filter a even though it matches, and
the full row list is emptied as well. -/
theorem c8_counterexample :
    (apply_filter "a" (apply_filter "" fstate0)).dtd = [] ∧
    (apply_filter "a" (apply_filter "" fstate0)).data = [] ∧
    rowMatches "a" rowA = true ∧
    fstate0.data = [rowA] := by decide

/-- C8, amended: when the filtered list does not alias the full list, a
nonempty filter recomputes the filtered set from the full row set, keeping
exactly the rows in which the lowercased string form of some column value
contains the filter text as a substring, and leaves the full list intact;
an empty filter yields all rows (by aliasing the two lists); filtering is
idempotent unconditionally - re-applying the same filter text yields the
same state. -/
theorem c8_amended_filtering :
    (∀ f st, f ≠ "" → st.aliased = false →
      (apply_filter f st).data = st.data ∧
      (apply_filter f st).dtd = st.data.filter (rowMatches f) ∧
      (∀ r : Row, r ∈ (apply_filter f st).dtd ↔
        r ∈ st.data ∧ ∃ kv ∈ r, f.toList <:+: kv.2.toList.map Char.toLower)) ∧
    (∀ st, (apply_filter "" st).dtd = (apply_filter "" st).data) ∧
    (∀ f st, apply_filter f (apply_filter f st) = apply_filter f st) := by
  refine ⟨?_, ?_, ?_⟩
  · intro f st hf ha
    have hd : apply_filter f st =
        { data := st.data, dtd := st.data.filter (rowMatches f), aliased := false } := by
      simp [apply_filter, hf, ha]
    rw [hd]
    refine ⟨rfl, rfl, ?_⟩
    intro r
    simp only [List.mem_filter, rowMatches, List.any_eq_true, subMatch_iff]
  · intro st
    simp [apply_filter]
  · intro f st
    by_cases hf : f = ""
    · subst hf
      simp [apply_filter]
    · simp [apply_filter, hf]

/-- Witness for C8 amended: filtering the non-aliased initial state with
the text a keeps the matching row and leaves the full list intact. -/
theorem c8_amended_filtering_witness :
    (apply_filter "a" fstate0).data = fstate0.data ∧
    (apply_filter "a" fstate0).dtd = fstate0.data.filter (rowMatches "a") :=
  ⟨(c8_amended_filtering.1 "a" fstate0 (by decide) rfl).1,
   (c8_amended_filtering.1 "a" fstate0 (by decide) rfl).2.1⟩

/-- C10: after an empty-filter pass the filtered list is the very same
list object as the full list, so the next nonempty-filter pass, which
clears the filtered list in place before rescanning, also empties the full
row list and therefore yields an empty filtered set, whatever the rows and
the filter text were. -/
theorem c10_aliased_clear_empties_data (st : FState) (f : String) (hf : f ≠ "") :
    apply_filter f (apply_filter "" st) =
      { data := [], dtd := [], aliased := false } := by
  simp [apply_filter, hf]

/-- Witness for C10 at the one-row state and the filter a. -/
theorem c10_aliased_clear_empties_data_witness :
    apply_filter "a" (apply_filter "" fstate0) =
      { data := [], dtd := [], aliased := false } :=
  c10_aliased_clear_empties_data fstate0 "a" (by decide)

end PPTop
